import Mathlib

/-!
Verification of the PDF date codec and batch metadata pipeline of
`app.py` (PDF Metadata Editor).

Python strings are embedded as `List Char`; a value that may be `None`
is embedded as `Option`; a computation that may raise an exception is
embedded as `Except Unit` (the `.error` constructor marks a raised
exception, its payload is irrelevant).
-/

namespace PdfMeta

/-- The apostrophe character used by the PDF offset designator. -/
def squote : Char := Char.ofNat 39

/-- The two-character prefix of a PDF date string. -/
def dPrefix : List Char := ['D', ':']

/-- Value of a decimal digit character, as Python `int` sees it. -/
def natOfDigits (l : List Char) : Nat :=
  l.foldl (fun a c => 10 * a + (c.toNat - 48)) 0

/-- Python `int(s)` on a digit-only string: fails (raises `ValueError`)
on the empty string.  Call sites only pass strings already filtered to
digits, so emptiness is the only failure. -/
def pyIntOfDigits (l : List Char) : Option Nat :=
  if l = [] then none else some (natOfDigits l)

/-- Gregorian leap-year rule, as used by Python `datetime`. -/
def isLeapYear (y : Nat) : Bool :=
  y % 4 == 0 && (y % 100 != 0 || y % 400 == 0)

/-- Number of days of month `mo` of year `y` (proleptic Gregorian). -/
def daysInMonth (y mo : Nat) : Nat :=
  if mo = 2 then (if isLeapYear y then 29 else 28)
  else if mo = 4 ∨ mo = 6 ∨ mo = 9 ∨ mo = 11 then 30
  else 31

/-- A naive calendar date-time, the result of
`datetime.strptime(padded, "%Y%m%d%H%M%S")`. -/
structure NaiveDt where
  year : Nat
  month : Nat
  day : Nat
  hour : Nat
  minute : Nat
  second : Nat
deriving DecidableEq, Repr

/-- An aware instant: calendar fields plus a fixed UTC offset in whole
minutes (`datetime` with a `pytz.FixedOffset`/`pytz.UTC` tzinfo). -/
structure Instant where
  year : Nat
  month : Nat
  day : Nat
  hour : Nat
  minute : Nat
  second : Nat
  offMinutes : Int
deriving DecidableEq, Repr

/-- Python `dt_naive.replace(tzinfo=tz)` for a fixed offset of `m` minutes. -/
def NaiveDt.withOffset (d : NaiveDt) (m : Int) : Instant :=
  ⟨d.year, d.month, d.day, d.hour, d.minute, d.second, m⟩

/-- The calendar-validity condition that
`datetime.strptime(s, "%Y%m%d%H%M%S")` enforces on a 14-digit string:
month 1–12, day within the month, hour below 24, minute and second
below 60, year at least 1 (the `datetime` constructor's lower bound). -/
abbrev validParts (y mo d h mi s : Nat) : Prop :=
  1 ≤ y ∧ 1 ≤ mo ∧ mo ≤ 12 ∧ 1 ≤ d ∧ d ≤ daysInMonth y mo ∧
    h ≤ 23 ∧ mi ≤ 59 ∧ s ≤ 59

/-- `datetime.strptime(l, "%Y%m%d%H%M%S")`: on a 14-character string the
format either consumes exactly 4+2+2+2+2+2 digit characters with every
field in range, or raises `ValueError` (regex mismatch, unconverted
trailing data, or a constructor range error) — embedded as `none`. -/
def parse14 (l : List Char) : Option NaiveDt :=
  if l.length = 14 ∧ l.all Char.isDigit then
    let y := natOfDigits (l.take 4)
    let mo := natOfDigits ((l.drop 4).take 2)
    let d := natOfDigits ((l.drop 6).take 2)
    let h := natOfDigits ((l.drop 8).take 2)
    let mi := natOfDigits ((l.drop 10).take 2)
    let s := natOfDigits ((l.drop 12).take 2)
    if validParts y mo d h mi s then some ⟨y, mo, d, h, mi, s⟩ else none
  else none

/-- The zero-padded digit segment of `pdf_date_to_datetime`:
`raw = s[2:]`, `base_part = raw[:min(14, len(raw))]`,
`padded = base_part.ljust(14, "0")`. -/
def paddedSegment (s : List Char) : List Char :=
  let raw := s.drop 2
  let basePart := raw.take (min 14 raw.length)
  basePart ++ List.replicate (14 - basePart.length) '0'

/-- The timezone suffix of `pdf_date_to_datetime`:
`tz_part = raw[base_len:]`. -/
def tzSegment (s : List Char) : List Char :=
  let raw := s.drop 2
  raw.drop (min 14 raw.length)

/-- The offset-minutes computation of `pdf_date_to_datetime` for a
non-empty, non-`"Z"` timezone part: `sign = tz_part[0]`,
`hours = digits of tz_part[1:3]`, `mins = digits of tz_part[4:6]` when
`len(tz_part) >= 6` else `"00"`; `int(hours) * 60 + int(mins)` with a
`ValueError` (empty fragment) degrading the whole magnitude to `0`;
negated when the sign character is `'-'`. -/
def parseTzOffset (tzPart : List Char) : Int :=
  let sign := tzPart.headD ' '
  let hoursTxt := ((tzPart.drop 1).take 2).filter Char.isDigit
  let minsTxt :=
    if 6 ≤ tzPart.length then ((tzPart.drop 4).take 2).filter Char.isDigit
    else ['0', '0']
  let mag : Nat :=
    match pyIntOfDigits hoursTxt, pyIntOfDigits minsTxt with
    | some h, some m => h * 60 + m
    | _, _ => 0
  if sign = '-' then -(mag : Int) else (mag : Int)

/-- `pdf_date_to_datetime(pdf_date_str)`.  `none` input embeds a
non-string argument (`isinstance` check fails).  `.ok none` embeds a
`return None`; `.error ()` embeds an uncaught exception —
`pytz.FixedOffset` raises `ValueError` when the absolute offset is not
below 1440 minutes (`pytz.FixedOffset(0)` is `pytz.UTC`, which is fine). -/
def pdf_date_to_datetime (input : Option (List Char)) :
    Except Unit (Option Instant) :=
  match input with
  | none => .ok none
  | some s =>
    if s.take 2 = dPrefix then
      match parse14 (paddedSegment s) with
      | none => .ok none
      | some dt =>
        let tzPart := tzSegment s
        if tzPart = [] ∨ tzPart = ['Z'] then .ok (some (dt.withOffset 0))
        else
          let offMin := parseTzOffset tzPart
          if 1440 ≤ offMin.natAbs then .error ()
          else .ok (some (dt.withOffset offMin))
    else .ok none

/-- The decimal digit character of `n` (for `n ≤ 9`). -/
def digitChar : Nat → Char
  | 0 => '0' | 1 => '1' | 2 => '2' | 3 => '3' | 4 => '4'
  | 5 => '5' | 6 => '6' | 7 => '7' | 8 => '8' | 9 => '9'
  | _ => '*'

/-- Python `f"{n:02d}"`. -/
def pad2 (n : Nat) : List Char :=
  if n ≤ 99 then [digitChar (n / 10), digitChar (n % 10)]
  else Nat.toDigits 10 n

/-- Python `f"{n:04d}"`, also `strftime("%Y")` zero-padded to width 4. -/
def pad4 (n : Nat) : List Char :=
  if n ≤ 9999 then
    [digitChar (n / 1000), digitChar (n / 100 % 10),
     digitChar (n / 10 % 10), digitChar (n % 10)]
  else Nat.toDigits 10 n

/-- `dt.strftime('%Y%m%d%H%M%S')` of an instant's wall-clock fields. -/
def strftimeDigits (dt : Instant) : List Char :=
  pad4 dt.year ++ pad2 dt.month ++ pad2 dt.day ++
    pad2 dt.hour ++ pad2 dt.minute ++ pad2 dt.second

/-- `format_pdf_date(dt)` on an aware datetime (every use the claims
touch); the source's naive-input branch first localizes to a zone and is
not reached by an aware argument.  `none` input is the source's
`dt is None` branch returning `""`. -/
def format_pdf_date (dt : Option Instant) : List Char :=
  match dt with
  | none => []
  | some dt =>
    if dt.offMinutes = 0 then dPrefix ++ strftimeDigits dt ++ ['Z']
    else
      let sign := if 0 ≤ dt.offMinutes then '+' else '-'
      let tm := dt.offMinutes.natAbs
      dPrefix ++ strftimeDigits dt ++ [sign] ++ pad2 (tm / 60) ++
        [squote] ++ pad2 (tm % 60) ++ [squote]

/-- Calendar validity of an instant's wall-clock fields (the fields a
Python `datetime` value can actually carry; year capped at 9999). -/
abbrev ValidInstant (x : Instant) : Prop :=
  x.year ≤ 9999 ∧
    validParts x.year x.month x.day x.hour x.minute x.second

/-! ### Batch metadata pipeline -/

/-- Source bytes of an uploaded file, opaque to the model. -/
abbrev Bytes := List Nat

/-- Python `str.strip()`: drop leading and trailing whitespace. -/
def pyStrip (l : List Char) : List Char :=
  ((l.dropWhile Char.isWhitespace).reverse.dropWhile Char.isWhitespace).reverse

def titleKey : List Char := "/Title".toList

def authorKey : List Char := "/Author".toList

def subjectKey : List Char := "/Subject".toList

def keywordsKey : List Char := "/Keywords".toList

def creatorKey : List Char := "/Creator".toList

def producerKey : List Char := "/Producer".toList

def creationDateKey : List Char := "/CreationDate".toList

def modDateKey : List Char := "/ModDate".toList

def DEFAULT_CREATOR : List Char :=
  ("JasperReports Library version 6.20.5-3efcf2e67f959db3888d79f73dde2dbd7acb4f8e").toList

def DEFAULT_PRODUCER : List Char := "OpenPDF 1.3.30".toList

/-- An info dictionary (the writer's `_info`), as a mapping from field
names to optional string values. -/
def WInfo := List Char → Option (List Char)

/-- One dictionary assignment `info[k] = v`. -/
def setField (i : WInfo) (k v : List Char) : WInfo :=
  fun q => if q = k then some v else i q

/-- `writer._info.pop(k, None)`. -/
def popField (i : WInfo) (k : List Char) : WInfo :=
  fun q => if q = k then none else i q

/-- `writer.add_metadata(m)`: merge the entries of `m` into the info
dictionary, later entries overriding earlier ones. -/
def add_metadata (i : WInfo) (m : List (List Char × List Char)) : WInfo :=
  m.foldl (fun acc kv => setField acc kv.1 kv.2) i

/-- Modelled from the spec: a fresh `PdfWriter`'s info dictionary.  The
rewrite capability auto-populates the creation and modification dates
unless told otherwise (a blanket `add_metadata({})` clear is observed to
leave them behind), so the fresh writer carries optional auto date
entries and nothing else. -/
def freshWriter (autoC autoM : Option (List Char)) : WInfo :=
  fun q =>
    if q = creationDateKey then autoC
    else if q = modDateKey then autoM
    else none

/-- A source document's metadata mapping (`reader.metadata`). -/
abbrev SrcInfo := List (List Char × List Char)

/-- Python `info.get(k, default)`. -/
def pyGet (i : SrcInfo) (k d : List Char) : List Char :=
  match i.find? (fun p => p.1 == k) with
  | some p => p.2
  | none => d

/-- The record `extract_metadata_dict` returns. -/
structure ExtractedMeta where
  title : List Char
  author : List Char
  subject : List Char
  keywords : List Char
  creator : List Char
  producer : List Char
  creation_dt : Option Instant
  mod_dt : Option Instant
deriving DecidableEq, Repr

/-- The fallback dictionary `extract_metadata_dict` returns from its
`except` handler: empty text fields, the branded Creator/Producer
defaults, and no dates. -/
def defaultExtracted : ExtractedMeta :=
  ⟨[], [], [], [], DEFAULT_CREATOR, DEFAULT_PRODUCER, none, none⟩

/-- Python `x or default` on strings: the empty string is falsy. -/
def pyOr (s d : List Char) : List Char := if s = [] then d else s

/-- `extract_metadata_dict(pdf_bytes, filename)`: the `PdfReader` open
and metadata read are abstracted as the `readResult` input (`.error` =
`PdfReader` raised; `.ok none` = `reader.metadata` was `None`).  The
whole body runs inside `try/except Exception`, so a stored date string
whose decode raises (see `pdf_date_to_datetime`) also lands in the
fallback branch. -/
def extract_metadata_dict (readResult : Except (List Char) (Option SrcInfo)) :
    ExtractedMeta :=
  match readResult with
  | .error _ => defaultExtracted
  | .ok infoOpt =>
    let info := infoOpt.getD []
    match pdf_date_to_datetime (some (pyGet info creationDateKey [])),
        pdf_date_to_datetime (some (pyGet info modDateKey [])) with
    | .ok cdt, .ok mdt =>
      { title := pyGet info titleKey []
        author := pyGet info authorKey []
        subject := pyGet info subjectKey []
        keywords := pyGet info keywordsKey []
        creator := pyOr (pyGet info creatorKey DEFAULT_CREATOR) DEFAULT_CREATOR
        producer := pyOr (pyGet info producerKey DEFAULT_PRODUCER) DEFAULT_PRODUCER
        creation_dt := cdt
        mod_dt := mdt }
    | _, _ => defaultExtracted

/-- One uploaded file: source name and source bytes. -/
structure BatchItem where
  name : List Char
  bytes : Bytes
deriving DecidableEq, Repr

/-- The two run actions of the processing block. -/
inductive Action
  | apply
  | clear
deriving DecidableEq, Repr

/-- The UI values a processing run reads (Streamlit widget state): the
six text inputs, the `apply_same_dates` checkbox, and — for the shared
date branch — the presence of the two date widgets together with the
already-encoded strings `format_pdf_date(datetime.combine(...), tz=LOCAL_TZ)`
(whose naive-datetime localization depends on the host zone and is
therefore carried here as an opaque value). -/
structure UiState where
  title : List Char
  author : List Char
  subject : List Char
  keywords : List Char
  creator : List Char
  producer : List Char
  apply_same_dates : Bool
  c_date_present : Bool
  encodedCreation : List Char
  m_date_present : Bool
  encodedMod : List Char

/-- Modelled from the spec: the document engine capability.  Opening
source bytes yields the source's metadata mapping or raises; writing the
rewritten document can raise; the auto-populated date values of a fresh
writer are engine data. -/
structure Engine where
  readPdf : Bytes → Except (List Char) (Option SrcInfo)
  autoC : Option (List Char)
  autoM : Option (List Char)
  writeErr : WInfo → Option (List Char)

/-- One `if value: meta_dict[key] = value` step of the apply branch. -/
def optEntry (cond : Prop) [Decidable cond] (k v : List Char) :
    List (List Char × List Char) :=
  if cond then [(k, v)] else []

/-- The six scalar entries of `meta_dict`, in source order: each is
written stripped, and skipped entirely when it strips to the empty
(falsy) string. -/
def buildTextMeta (ui : UiState) : List (List Char × List Char) :=
  optEntry (pyStrip ui.title ≠ []) titleKey (pyStrip ui.title) ++
    optEntry (pyStrip ui.author ≠ []) authorKey (pyStrip ui.author) ++
    optEntry (pyStrip ui.subject ≠ []) subjectKey (pyStrip ui.subject) ++
    optEntry (pyStrip ui.keywords ≠ []) keywordsKey (pyStrip ui.keywords) ++
    optEntry (pyStrip ui.creator ≠ []) creatorKey (pyStrip ui.creator) ++
    optEntry (pyStrip ui.producer ≠ []) producerKey (pyStrip ui.producer)

/-- The date entries of `meta_dict`: with `apply_same_dates`, the two
UI-encoded values shared by every file; otherwise this file's own
original timestamps, re-extracted from its bytes and re-encoded
unchanged (the `tz` argument passed at those call sites is the aware
datetime's own zone, which `format_pdf_date` ignores for aware input). -/
def buildDateMeta (eng : Engine) (ui : UiState) (item : BatchItem) :
    List (List Char × List Char) :=
  if ui.apply_same_dates then
    optEntry (ui.c_date_present = true) creationDateKey ui.encodedCreation ++
      optEntry (ui.m_date_present = true) modDateKey ui.encodedMod
  else
    let srcMeta := extract_metadata_dict (eng.readPdf item.bytes)
    optEntry (srcMeta.creation_dt.isSome = true) creationDateKey
        (format_pdf_date srcMeta.creation_dt) ++
      optEntry (srcMeta.mod_dt.isSome = true) modDateKey
        (format_pdf_date srcMeta.mod_dt)

/-- Python `name.rfind('.')`: the largest index holding `'.'`. -/
def rfindDot (n : List Char) : Option Nat :=
  ((List.range n.length).filter (fun i => n.get? i == some '.')).getLast?

/-- `pathlib.Path(name).stem`: the name minus its last suffix; a suffix
exists when the last dot is neither at index 0 nor in final position
(upload names are plain file names, without path separators). -/
def pyStem (n : List Char) : List Char :=
  match rfindDot n with
  | some i => if 0 < i ∧ i < n.length - 1 then n.take i else n
  | none => n

/-- `f"{prefix} {Path(file.name).stem}.pdf"` with the action's tag. -/
def outputName (action : Action) (name : List Char) : List Char :=
  (match action with
    | .clear => ("[CLEARED]").toList
    | .apply => ("[EDITED]").toList) ++ [' '] ++ pyStem name ++ (".pdf").toList

/-- One iteration of the processing loop's `try` block: open the source
(`PdfReader`), build a fresh writer over its pages, clear or apply the
metadata, serialize, and name the output.  The success value carries the
output name and the written document's info mapping; `.error` carries
the exception text. -/
def processItem (eng : Engine) (ui : UiState) (action : Action)
    (item : BatchItem) : Except (List Char) (List Char × WInfo) :=
  match eng.readPdf item.bytes with
  | .error e => .error e
  | .ok _ =>
    let w0 := freshWriter eng.autoC eng.autoM
    let wfinal :=
      match action with
      | .clear =>
        popField (popField (add_metadata w0 []) creationDateKey) modDateKey
      | .apply => add_metadata w0 (buildTextMeta ui ++ buildDateMeta eng ui item)
    match eng.writeErr wfinal with
    | some e => .error e
    | none => .ok (outputName action item.name, wfinal)

/-- The per-item step of the loop: a success appends the named output to
`processed`, an exception appends `f"{file.name}: {exc}"` to `errors`. -/
def batchStep (eng : Engine) (ui : UiState) (action : Action)
    (acc : List (List Char × WInfo) × List (List Char)) (item : BatchItem) :
    List (List Char × WInfo) × List (List Char) :=
  match processItem eng ui action item with
  | .ok r => (acc.1 ++ [r], acc.2)
  | .error e => (acc.1, acc.2 ++ [item.name ++ (": ").toList ++ e])

/-- The processing loop over the uploaded files, in input order,
starting from empty `processed` and `errors` lists. -/
def runBatch (eng : Engine) (ui : UiState) (action : Action)
    (items : List BatchItem) :
    List (List Char × WInfo) × List (List Char) :=
  items.foldl (batchStep eng ui action) ([], [])

/-- The success outcome an item contributes, if any. -/
def okOutcome (eng : Engine) (ui : UiState) (action : Action)
    (it : BatchItem) : Option (List Char × WInfo) :=
  match processItem eng ui action it with
  | .ok r => some r
  | .error _ => none

/-- The failure outcome an item contributes, if any: its source name,
`": "`, and the error text. -/
def errOutcome (eng : Engine) (ui : UiState) (action : Action)
    (it : BatchItem) : Option (List Char) :=
  match processItem eng ui action it with
  | .ok _ => none
  | .error e => some (it.name ++ (": ").toList ++ e)

/-- An example engine: bytes `[2]` do not open as a document, everything
else opens with an empty metadata mapping; writes succeed. -/
def exEngine : Engine where
  readPdf := fun b =>
    if b = [2] then .error (("invalid pdf header").toList) else .ok (some [])
  autoC := some (("D:20240101000000Z").toList)
  autoM := some (("D:20240101000000Z").toList)
  writeErr := fun _ => none

/-- An example UI state: shared dates, both date widgets unset. -/
def exUi : UiState :=
  ⟨("T").toList, [], [], [], [], [], true, false, [], false, []⟩

/-- An example UI state whose title is whitespace only. -/
def exUiBlank : UiState :=
  ⟨("  ").toList, ("A").toList, [], [], [], [], true, false, [], false, []⟩

/-- A three-item example batch whose middle item is unopenable. -/
def exItems : List BatchItem :=
  [⟨("a.pdf").toList, [1]⟩, ⟨("b.pdf").toList, [2]⟩, ⟨("c.pdf").toList, [3]⟩]

/-! ### Digit and padding lemmas -/

lemma isDigit_digitChar {n : Nat} (h : n ≤ 9) : (digitChar n).isDigit = true := by
  interval_cases n <;> rfl

lemma toNat_digitChar {n : Nat} (h : n ≤ 9) : (digitChar n).toNat - 48 = n := by
  interval_cases n <;> rfl

lemma pad2_eq {n : Nat} (h : n ≤ 99) :
    pad2 n = [digitChar (n / 10), digitChar (n % 10)] := by
  simp [pad2, h]

lemma pad4_eq {n : Nat} (h : n ≤ 9999) :
    pad4 n = [digitChar (n / 1000), digitChar (n / 100 % 10),
      digitChar (n / 10 % 10), digitChar (n % 10)] := by
  simp [pad4, h]

lemma pad2_length {n : Nat} (h : n ≤ 99) : (pad2 n).length = 2 := by
  rw [pad2_eq h]; rfl

lemma pad4_length {n : Nat} (h : n ≤ 9999) : (pad4 n).length = 4 := by
  rw [pad4_eq h]; rfl

lemma pad2_all_digits {n : Nat} (h : n ≤ 99) :
    (pad2 n).all Char.isDigit = true := by
  rw [pad2_eq h]
  simp [List.all_cons, isDigit_digitChar (show n / 10 ≤ 9 by omega),
    isDigit_digitChar (show n % 10 ≤ 9 by omega)]

lemma pad4_all_digits {n : Nat} (h : n ≤ 9999) :
    (pad4 n).all Char.isDigit = true := by
  rw [pad4_eq h]
  simp [List.all_cons, isDigit_digitChar (show n / 1000 ≤ 9 by omega),
    isDigit_digitChar (show n / 100 % 10 ≤ 9 by omega),
    isDigit_digitChar (show n / 10 % 10 ≤ 9 by omega),
    isDigit_digitChar (show n % 10 ≤ 9 by omega)]

lemma natOfDigits_pad2 {n : Nat} (h : n ≤ 99) : natOfDigits (pad2 n) = n := by
  rw [pad2_eq h]
  simp [natOfDigits, List.foldl_cons, List.foldl_nil,
    toNat_digitChar (show n / 10 ≤ 9 by omega),
    toNat_digitChar (show n % 10 ≤ 9 by omega)]
  omega

lemma natOfDigits_pad4 {n : Nat} (h : n ≤ 9999) : natOfDigits (pad4 n) = n := by
  rw [pad4_eq h]
  simp [natOfDigits, List.foldl_cons, List.foldl_nil,
    toNat_digitChar (show n / 1000 ≤ 9 by omega),
    toNat_digitChar (show n / 100 % 10 ≤ 9 by omega),
    toNat_digitChar (show n / 10 % 10 ≤ 9 by omega),
    toNat_digitChar (show n % 10 ≤ 9 by omega)]
  omega

lemma pad2_filter_digits {n : Nat} (h : n ≤ 99) :
    (pad2 n).filter Char.isDigit = pad2 n := by
  rw [pad2_eq h]
  simp [List.filter_cons, isDigit_digitChar (show n / 10 ≤ 9 by omega),
    isDigit_digitChar (show n % 10 ≤ 9 by omega)]

lemma daysInMonth_le (y mo : Nat) : daysInMonth y mo ≤ 31 := by
  unfold daysInMonth
  split_ifs <;> simp

/-- Parsing the concatenation of the six zero-padded fields recovers the
fields, provided they satisfy the calendar checks `strptime` applies. -/
lemma parse14_parts (y mo d h mi s : Nat) (hy : y ≤ 9999) (hmo : mo ≤ 99)
    (hd : d ≤ 99) (hh : h ≤ 99) (hmi : mi ≤ 99) (hs : s ≤ 99)
    (hvalid : validParts y mo d h mi s) :
    parse14 (pad4 y ++ (pad2 mo ++ (pad2 d ++ (pad2 h ++ (pad2 mi ++ pad2 s))))) =
      some ⟨y, mo, d, h, mi, s⟩ := by
  have l4 := pad4_length hy
  have lmo := pad2_length hmo
  have ld := pad2_length hd
  have lh := pad2_length hh
  have lmi := pad2_length hmi
  have ls := pad2_length hs
  have hcond :
      (pad4 y ++ (pad2 mo ++ (pad2 d ++ (pad2 h ++ (pad2 mi ++ pad2 s))))).length = 14 ∧
        (pad4 y ++ (pad2 mo ++ (pad2 d ++ (pad2 h ++ (pad2 mi ++ pad2 s))))).all
          Char.isDigit := by
    constructor
    · simp [List.length_append, l4, lmo, ld, lh, lmi, ls]
    · simp [List.all_append, pad4_all_digits hy, pad2_all_digits hmo,
        pad2_all_digits hd, pad2_all_digits hh, pad2_all_digits hmi,
        pad2_all_digits hs]
  have htake4 :
      (pad4 y ++ (pad2 mo ++ (pad2 d ++ (pad2 h ++ (pad2 mi ++ pad2 s))))).take 4 =
        pad4 y := List.take_left' l4
  have hdrop4 :
      (pad4 y ++ (pad2 mo ++ (pad2 d ++ (pad2 h ++ (pad2 mi ++ pad2 s))))).drop 4 =
        pad2 mo ++ (pad2 d ++ (pad2 h ++ (pad2 mi ++ pad2 s))) := List.drop_left' l4
  have hdrop6 :
      (pad4 y ++ (pad2 mo ++ (pad2 d ++ (pad2 h ++ (pad2 mi ++ pad2 s))))).drop 6 =
        pad2 d ++ (pad2 h ++ (pad2 mi ++ pad2 s)) := by
    rw [show (6 : Nat) = 4 + 2 by rfl, ← List.drop_drop, hdrop4]
    exact List.drop_left' lmo
  have hdrop8 :
      (pad4 y ++ (pad2 mo ++ (pad2 d ++ (pad2 h ++ (pad2 mi ++ pad2 s))))).drop 8 =
        pad2 h ++ (pad2 mi ++ pad2 s) := by
    rw [show (8 : Nat) = 6 + 2 by rfl, ← List.drop_drop, hdrop6]
    exact List.drop_left' ld
  have hdrop10 :
      (pad4 y ++ (pad2 mo ++ (pad2 d ++ (pad2 h ++ (pad2 mi ++ pad2 s))))).drop 10 =
        pad2 mi ++ pad2 s := by
    rw [show (10 : Nat) = 8 + 2 by rfl, ← List.drop_drop, hdrop8]
    exact List.drop_left' lh
  have hdrop12 :
      (pad4 y ++ (pad2 mo ++ (pad2 d ++ (pad2 h ++ (pad2 mi ++ pad2 s))))).drop 12 =
        pad2 s := by
    rw [show (12 : Nat) = 10 + 2 by rfl, ← List.drop_drop, hdrop10]
    exact List.drop_left' lmi
  rw [parse14, if_pos hcond]
  simp only [htake4, hdrop4, hdrop6, hdrop8, hdrop10, hdrop12,
    List.take_left' lmo, List.take_left' ld, List.take_left' lh,
    List.take_left' lmi, natOfDigits_pad4 hy, natOfDigits_pad2 hmo,
    natOfDigits_pad2 hd, natOfDigits_pad2 hh, natOfDigits_pad2 hmi]
  rw [show (pad2 s).take 2 = pad2 s from List.take_of_length_le (by omega),
    natOfDigits_pad2 hs, if_pos hvalid]

/-- `strftime('%Y%m%d%H%M%S')` of a valid instant parses back to its
wall-clock fields. -/
lemma parse14_strftime (x : Instant) (hv : ValidInstant x) :
    parse14 (strftimeDigits x) =
      some ⟨x.year, x.month, x.day, x.hour, x.minute, x.second⟩ := by
  obtain ⟨hy, h1, hmo1, hmo2, hd1, hd2, hh, hmi, hs⟩ := hv
  have hd99 : x.day ≤ 99 := le_trans hd2 (le_trans (daysInMonth_le _ _) (by omega))
  rw [strftimeDigits, List.append_assoc, List.append_assoc, List.append_assoc,
    List.append_assoc]
  exact parse14_parts _ _ _ _ _ _ hy (by omega) hd99 (by omega) (by omega)
    (by omega) ⟨h1, hmo1, hmo2, hd1, hd2, hh, hmi, hs⟩

lemma strftime_length (x : Instant) (hv : ValidInstant x) :
    (strftimeDigits x).length = 14 := by
  obtain ⟨hy, h1, hmo1, hmo2, hd1, hd2, hh, hmi, hs⟩ := hv
  have hd99 : x.day ≤ 99 := le_trans hd2 (le_trans (daysInMonth_le _ _) (by omega))
  simp [strftimeDigits, List.length_append, pad4_length hy,
    pad2_length (show x.month ≤ 99 by omega), pad2_length hd99,
    pad2_length (show x.hour ≤ 99 by omega),
    pad2_length (show x.minute ≤ 99 by omega),
    pad2_length (show x.second ≤ 99 by omega)]

/-! ### Decoding a well-formed date string -/

lemma paddedSegment_of_digits (D tail : List Char) (hD : D.length = 14) :
    paddedSegment (dPrefix ++ (D ++ tail)) = D := by
  simp only [paddedSegment]
  rw [List.drop_left' (show dPrefix.length = 2 from rfl)]
  have hmin : min 14 (D ++ tail).length = 14 :=
    Nat.min_eq_left (by simp [List.length_append, hD])
  rw [hmin, List.take_left' hD, hD]
  simp

lemma tzSegment_of_digits (D tail : List Char) (hD : D.length = 14) :
    tzSegment (dPrefix ++ (D ++ tail)) = tail := by
  simp only [tzSegment]
  rw [List.drop_left' (show dPrefix.length = 2 from rfl)]
  have hmin : min 14 (D ++ tail).length = 14 :=
    Nat.min_eq_left (by simp [List.length_append, hD])
  rw [hmin, List.drop_left' hD]

lemma take_two_dPrefix (rest : List Char) : (dPrefix ++ rest).take 2 = dPrefix :=
  List.take_left' rfl

/-- Unfolding `pdf_date_to_datetime` when the suffix is empty or `Z`. -/
lemma decode_z_case (str : List Char) (dt : NaiveDt)
    (hpre : str.take 2 = dPrefix)
    (hpad : parse14 (paddedSegment str) = some dt)
    (htz : tzSegment str = [] ∨ tzSegment str = ['Z']) :
    pdf_date_to_datetime (some str) = .ok (some (dt.withOffset 0)) := by
  simp only [pdf_date_to_datetime]
  rw [if_pos hpre, hpad]
  rcases htz with h | h <;> simp [h]

/-- Unfolding `pdf_date_to_datetime` when a proper offset suffix is
present and its magnitude is inside the `pytz.FixedOffset` range. -/
lemma decode_offset_case (str : List Char) (dt : NaiveDt)
    (hpre : str.take 2 = dPrefix)
    (hpad : parse14 (paddedSegment str) = some dt)
    (hne : tzSegment str ≠ []) (hnz : tzSegment str ≠ ['Z'])
    (habs : (parseTzOffset (tzSegment str)).natAbs < 1440) :
    pdf_date_to_datetime (some str) =
      .ok (some (dt.withOffset (parseTzOffset (tzSegment str)))) := by
  simp only [pdf_date_to_datetime]
  rw [if_pos hpre, hpad]
  simp only [hne, hnz, or_self, if_false, or_false, false_or]
  rw [if_neg (by omega)]

/-- The offset suffix written by `format_pdf_date` parses back to the
offset it was written from. -/
lemma parseTzOffset_format (sgn : Char) (tm : Nat) (htm : tm ≤ 1439) :
    parseTzOffset ([sgn] ++ (pad2 (tm / 60) ++ ([squote] ++ (pad2 (tm % 60) ++ [squote])))) =
      if sgn = '-' then -(tm : Int) else (tm : Int) := by
  have hh : tm / 60 ≤ 99 := by omega
  have hm : tm % 60 ≤ 99 := by omega
  have lh := pad2_length hh
  have lm := pad2_length hm
  have hne_h : pad2 (tm / 60) ≠ [] := by rw [pad2_eq hh]; simp
  have hne_m : pad2 (tm % 60) ≠ [] := by rw [pad2_eq hm]; simp
  simp only [parseTzOffset]
  have hcons : [sgn] ++ (pad2 (tm / 60) ++ ([squote] ++ (pad2 (tm % 60) ++ [squote]))) =
      sgn :: (pad2 (tm / 60) ++ ([squote] ++ (pad2 (tm % 60) ++ [squote]))) := by
    simp
  rw [hcons]
  have hdrop1 : (sgn :: (pad2 (tm / 60) ++ ([squote] ++ (pad2 (tm % 60) ++ [squote])))).drop 1 =
      pad2 (tm / 60) ++ ([squote] ++ (pad2 (tm % 60) ++ [squote])) := rfl
  have htake_h : ((sgn :: (pad2 (tm / 60) ++ ([squote] ++ (pad2 (tm % 60) ++ [squote])))).drop 1).take 2 =
      pad2 (tm / 60) := by
    rw [hdrop1]; exact List.take_left' lh
  have hlen6 : 6 ≤ (sgn :: (pad2 (tm / 60) ++ ([squote] ++ (pad2 (tm % 60) ++ [squote])))).length := by
    simp [List.length_append, lh, lm]
  have hregroup : sgn :: (pad2 (tm / 60) ++ ([squote] ++ (pad2 (tm % 60) ++ [squote]))) =
      (sgn :: (pad2 (tm / 60) ++ [squote])) ++ (pad2 (tm % 60) ++ [squote]) := by
    simp
  have hdrop4 : (sgn :: (pad2 (tm / 60) ++ ([squote] ++ (pad2 (tm % 60) ++ [squote])))).drop 4 =
      pad2 (tm % 60) ++ [squote] := by
    rw [hregroup]
    exact List.drop_left' (by simp [lh])
  have htake_m : ((sgn :: (pad2 (tm / 60) ++ ([squote] ++ (pad2 (tm % 60) ++ [squote])))).drop 4).take 2 =
      pad2 (tm % 60) := by
    rw [hdrop4]; exact List.take_left' lm
  rw [htake_h, if_pos hlen6, htake_m, pad2_filter_digits hh, pad2_filter_digits hm]
  simp only [List.headD_cons, pyIntOfDigits, if_neg hne_h, if_neg hne_m,
    natOfDigits_pad2 hh, natOfDigits_pad2 hm]
  have : tm / 60 * 60 + tm % 60 = tm := by omega
  rw [this]

/-- C1.  Round-trip law of the date codec: decoding the encoding of an
aware instant with a valid calendar value and an offset in whole minutes
within `[-720, 840]` returns exactly the same wall-clock fields and the
same offset. -/
theorem decode_encode_roundtrip (x : Instant) (hv : ValidInstant x)
    (hlo : -720 ≤ x.offMinutes) (hhi : x.offMinutes ≤ 840) :
    pdf_date_to_datetime (some (format_pdf_date (some x))) = .ok (some x) := by
  have hD := strftime_length x hv
  have hparse := parse14_strftime x hv
  have heta : NaiveDt.withOffset
      ⟨x.year, x.month, x.day, x.hour, x.minute, x.second⟩ x.offMinutes = x := rfl
  by_cases h0 : x.offMinutes = 0
  · have hfmt : format_pdf_date (some x) =
        dPrefix ++ (strftimeDigits x ++ ['Z']) := by
      simp [format_pdf_date, h0, List.append_assoc]
    rw [hfmt, decode_z_case _ ⟨x.year, x.month, x.day, x.hour, x.minute, x.second⟩
      (take_two_dPrefix _)
      (by rw [paddedSegment_of_digits _ _ hD]; exact hparse)
      (Or.inr (tzSegment_of_digits _ _ hD)), ← h0, heta]
  · set sgn := (if (0 : Int) ≤ x.offMinutes then '+' else '-') with hsgndef
    set tm := x.offMinutes.natAbs with htmdef
    set tail := [sgn] ++ (pad2 (tm / 60) ++ ([squote] ++ (pad2 (tm % 60) ++ [squote])))
      with htaildef
    have htm : tm ≤ 1439 := by omega
    have htaillen : tail.length = 7 := by
      rw [htaildef]
      simp [List.length_append, pad2_length (show tm / 60 ≤ 99 by omega),
        pad2_length (show tm % 60 ≤ 99 by omega)]
    have hfmt : format_pdf_date (some x) = dPrefix ++ (strftimeDigits x ++ tail) := by
      rw [htaildef]
      simp [format_pdf_date, h0, List.append_assoc]
    have htz : tzSegment (dPrefix ++ (strftimeDigits x ++ tail)) = tail :=
      tzSegment_of_digits _ _ hD
    have hoffval : parseTzOffset tail = x.offMinutes := by
      rw [htaildef, parseTzOffset_format _ _ htm]
      by_cases hpos : (0 : Int) ≤ x.offMinutes
      · rw [if_neg (by rw [hsgndef, if_pos hpos]; simp)]
        omega
      · rw [if_pos (by rw [hsgndef, if_neg hpos])]
        omega
    rw [hfmt, decode_offset_case _ ⟨x.year, x.month, x.day, x.hour, x.minute, x.second⟩
      (take_two_dPrefix _)
      (by rw [paddedSegment_of_digits _ _ hD]; exact hparse)
      (by rw [htz]; intro hc
          have := congrArg List.length hc
          rw [htaillen] at this; simp at this)
      (by rw [htz]; intro hc
          have := congrArg List.length hc
          rw [htaillen] at this; simp at this)
      (by rw [htz, hoffval]; omega), htz, hoffval, heta]

lemma strftime_all_digits (x : Instant) (hv : ValidInstant x) :
    (strftimeDigits x).all Char.isDigit = true := by
  obtain ⟨hy, h1, hmo1, hmo2, hd1, hd2, hh, hmi, hs⟩ := hv
  have hd99 : x.day ≤ 99 := le_trans hd2 (le_trans (daysInMonth_le _ _) (by omega))
  simp [strftimeDigits, List.all_append, pad4_all_digits hy,
    pad2_all_digits (show x.month ≤ 99 by omega), pad2_all_digits hd99,
    pad2_all_digits (show x.hour ≤ 99 by omega),
    pad2_all_digits (show x.minute ≤ 99 by omega),
    pad2_all_digits (show x.second ≤ 99 by omega)]

/-- C5.  Zero-offset canonicalization: encoding a valid instant whose
UTC offset is exactly zero yields `D:` followed by fourteen digits
followed by the literal character `Z` — never the `+00'00'` form. -/
theorem zero_offset_z_form (x : Instant) (hv : ValidInstant x)
    (h0 : x.offMinutes = 0) :
    ∃ ds : List Char, format_pdf_date (some x) = dPrefix ++ ds ++ ['Z'] ∧
      ds.length = 14 ∧ ds.all Char.isDigit = true := by
  refine ⟨strftimeDigits x, ?_, strftime_length x hv, strftime_all_digits x hv⟩
  simp [format_pdf_date, h0]

/-- Witness for C5 at a concrete instant. -/
theorem zero_offset_z_form_witness :
    ∃ ds : List Char,
      format_pdf_date (some ⟨2024, 9, 10, 12, 30, 45, 0⟩) = dPrefix ++ ds ++ ['Z'] ∧
        ds.length = 14 ∧ ds.all Char.isDigit = true :=
  zero_offset_z_form ⟨2024, 9, 10, 12, 30, 45, 0⟩ (by decide) rfl

/-- Witness for C1 at a concrete instant with offset +150 minutes. -/
theorem decode_encode_roundtrip_witness :
    pdf_date_to_datetime
        (some (format_pdf_date (some ⟨2024, 9, 10, 12, 30, 45, 150⟩))) =
      .ok (some ⟨2024, 9, 10, 12, 30, 45, 150⟩) :=
  decode_encode_roundtrip ⟨2024, 9, 10, 12, 30, 45, 150⟩ (by decide)
    (by decide) (by decide)

/-- C4.  The decoder returns `None` exactly when the input is not a
string starting with `D:` or the zero-padded 14-character digit segment
fails the calendar validation of `strptime`; a bad timezone suffix never
yields `None` (it yields a degraded offset, or an out-of-range error). -/
theorem decode_none_characterization :
    pdf_date_to_datetime none = .ok none ∧
      ∀ s : List Char,
        (pdf_date_to_datetime (some s) = .ok none ↔
          s.take 2 ≠ dPrefix ∨ parse14 (paddedSegment s) = none) := by
  refine ⟨rfl, fun s => ⟨fun h => ?_, fun h => ?_⟩⟩
  · by_cases hpre : s.take 2 = dPrefix
    · cases hpad : parse14 (paddedSegment s) with
      | none => exact Or.inr rfl
      | some dt =>
        exfalso
        simp only [pdf_date_to_datetime, if_pos hpre, hpad] at h
        split at h
        · simp at h
        · split at h <;> simp at h
    · exact Or.inl hpre
  · rcases h with hpre | hpad
    · simp [pdf_date_to_datetime, hpre]
    · by_cases hpre : s.take 2 = dPrefix
      · simp [pdf_date_to_datetime, hpre, hpad]
      · simp [pdf_date_to_datetime, hpre]

/-- Witness for C4: month 13 is rejected; the empty string and a
non-`D:` ISO date give `None`; a bad suffix still gives a value. -/
theorem decode_none_characterization_witness :
    pdf_date_to_datetime (some ("D:20241332000000Z".toList)) = .ok none ∧
      pdf_date_to_datetime (some ([] : List Char)) = .ok none ∧
      pdf_date_to_datetime (some ("2024-09-10".toList)) = .ok none ∧
      pdf_date_to_datetime none = .ok none :=
  ⟨(decode_none_characterization.2 _).mpr (Or.inr (by decide)),
    (decode_none_characterization.2 _).mpr (Or.inl (by decide)),
    (decode_none_characterization.2 _).mpr (Or.inl (by decide)),
    decode_none_characterization.1⟩

/-- C2 as stated is false on the code: `ljust(14, "0")` turns `D:2024`
into `20240000000000` (month `00`) and `D:202402` into `20240200000000`
(day `00`), both of which fail `strptime`, so the decoder returns `None`
for both inputs rather than the claimed instants. -/
theorem short_segment_decode_counterexample :
    pdf_date_to_datetime (some ("D:2024".toList)) = .ok none ∧
      pdf_date_to_datetime (some ("D:202402".toList)) = .ok none :=
  ⟨rfl, rfl⟩

/-- C2 amended: right-padding with `'0'` completes only the
hour/minute/second fields; a digit segment carrying a full, valid
`YYYYMMDD` decodes to that date at `00:00:00` UTC, while a segment too
short to contain a month or day pads those fields to `00` and decodes to
`None`. -/
theorem short_segment_zero_padding (y mo d : Nat)
    (hv : ValidInstant ⟨y, mo, d, 0, 0, 0, 0⟩) :
    pdf_date_to_datetime (some (dPrefix ++ (pad4 y ++ (pad2 mo ++ pad2 d)))) =
      .ok (some ⟨y, mo, d, 0, 0, 0, 0⟩) := by
  obtain ⟨hy, h1, hmo1, hmo2, hd1, hd2, -, -, -⟩ :
      y ≤ 9999 ∧ 1 ≤ y ∧ 1 ≤ mo ∧ mo ≤ 12 ∧ 1 ≤ d ∧ d ≤ daysInMonth y mo ∧
        (0 : Nat) ≤ 23 ∧ (0 : Nat) ≤ 59 ∧ (0 : Nat) ≤ 59 := hv
  have hd99 : d ≤ 99 := le_trans hd2 (le_trans (daysInMonth_le _ _) (by omega))
  have hlen : (pad4 y ++ (pad2 mo ++ pad2 d)).length = 8 := by
    simp [List.length_append, pad4_length hy,
      pad2_length (show mo ≤ 99 by omega), pad2_length hd99]
  have hmin : min 14 (pad4 y ++ (pad2 mo ++ pad2 d)).length = 8 := by
    rw [hlen]
    exact Nat.min_eq_right (by omega)
  have hpad : paddedSegment (dPrefix ++ (pad4 y ++ (pad2 mo ++ pad2 d))) =
      pad4 y ++ (pad2 mo ++ (pad2 d ++ (pad2 0 ++ (pad2 0 ++ pad2 0)))) := by
    simp only [paddedSegment]
    rw [List.drop_left' (show dPrefix.length = 2 from rfl), hmin,
      List.take_of_length_le (le_of_eq hlen), hlen]
    rw [show List.replicate (14 - 8) '0' = pad2 0 ++ (pad2 0 ++ pad2 0) from rfl]
    simp [List.append_assoc]
  have hparse : parse14 (paddedSegment (dPrefix ++ (pad4 y ++ (pad2 mo ++ pad2 d)))) =
      some ⟨y, mo, d, 0, 0, 0⟩ := by
    rw [hpad]
    exact parse14_parts y mo d 0 0 0 hy (by omega) hd99 (by omega) (by omega)
      (by omega) ⟨h1, hmo1, hmo2, hd1, hd2, by omega, by omega, by omega⟩
  have htz : tzSegment (dPrefix ++ (pad4 y ++ (pad2 mo ++ pad2 d))) = [] := by
    simp only [tzSegment]
    rw [List.drop_left' (show dPrefix.length = 2 from rfl), hmin, ← hlen,
      List.drop_length]
  exact decode_z_case _ _ (take_two_dPrefix _) hparse (Or.inl htz)

/-- Witness for the amended C2 at 2024-02-01 (and the `00:00:00` filling
the padding produces). -/
theorem short_segment_zero_padding_witness :
    pdf_date_to_datetime (some (dPrefix ++ (pad4 2024 ++ (pad2 2 ++ pad2 1)))) =
      .ok (some ⟨2024, 2, 1, 0, 0, 0, 0⟩) :=
  short_segment_zero_padding 2024 2 1 (by decide)

/-- C3 as stated is false on the code: a suffix whose parsed absolute
offset reaches 1440 minutes makes `pytz.FixedOffset` raise `ValueError`,
so `decode("D:20240910123000+99'00'")` raises instead of returning. -/
theorem decode_raises_counterexample :
    pdf_date_to_datetime
        (some ("D:20240910123000+99".toList ++ [squote] ++ ['0', '0'] ++ [squote])) =
      .error () := rfl

/-- C3 amended: the decoder never raises as long as the parsed absolute
offset stays below 1440 minutes; in particular unparsable numeric
fragments degrade the offset to `0` rather than failing, as in the
`+XX'YY'` example. -/
theorem decode_total_below_overflow :
    pdf_date_to_datetime
        (some ("D:20240910123000+XX".toList ++ [squote] ++ ['Y', 'Y'] ++ [squote])) =
      .ok (some ⟨2024, 9, 10, 12, 30, 0, 0⟩) ∧
      ∀ s : List Char, (parseTzOffset (tzSegment s)).natAbs < 1440 →
        pdf_date_to_datetime (some s) ≠ .error () := by
  refine ⟨rfl, fun s habs h => ?_⟩
  simp only [pdf_date_to_datetime] at h
  by_cases hpre : s.take 2 = dPrefix
  · rw [if_pos hpre] at h
    cases hpad : parse14 (paddedSegment s) with
    | none => simp only [hpad] at h; simp at h
    | some dt =>
      simp only [hpad] at h
      by_cases htz : tzSegment s = [] ∨ tzSegment s = ['Z']
      · rw [if_pos htz] at h; simp at h
      · rw [if_neg htz,
          if_neg (show ¬(1440 ≤ (parseTzOffset (tzSegment s)).natAbs) by omega)] at h
        simp at h
  · rw [if_neg hpre] at h; simp at h

/-- Witness for the amended C3: a well-formed `+05'30'` suffix is below
the overflow bound, so decoding does not raise. -/
theorem decode_total_below_overflow_witness :
    pdf_date_to_datetime
        (some ("D:20240910123000+05".toList ++ [squote] ++ ['3', '0'] ++ [squote])) ≠
      .error () :=
  decode_total_below_overflow.2 _ (by decide)

example :
    pdf_date_to_datetime (some ("D:20240910123000".toList)) =
      .ok (some ⟨2024, 9, 10, 12, 30, 0, 0⟩) := rfl

example :
    format_pdf_date (some ⟨2024, 9, 10, 12, 30, 0, 0⟩) =
      ("D:20240910123000Z".toList) := rfl

example :
    format_pdf_date (some ⟨2024, 9, 10, 12, 30, 0, 150⟩) =
      ("D:20240910123000+02".toList ++ [squote] ++ ['3', '0'] ++ [squote]) :=
  rfl

example :
    pdf_date_to_datetime
        (some ("D:20240910123000+02".toList ++ [squote] ++ ['3', '0'] ++ [squote])) =
      .ok (some ⟨2024, 9, 10, 12, 30, 0, 150⟩) := rfl

example :
    pdf_date_to_datetime
        (some ("D:20240910123000+XX".toList ++ [squote] ++ ['Y', 'Y'] ++ [squote])) =
      .ok (some ⟨2024, 9, 10, 12, 30, 0, 0⟩) := rfl

example :
    pdf_date_to_datetime
        (some ("D:20240910123000+99".toList ++ [squote] ++ ['0', '0'] ++ [squote])) =
      .error () := rfl

example : pdf_date_to_datetime (some ("D:20241332000000Z".toList)) = .ok none :=
  rfl

/-! ### Batch pipeline lemmas -/

lemma foldl_batchStep (eng : Engine) (ui : UiState) (action : Action) :
    ∀ (items : List BatchItem) (acc : List (List Char × WInfo) × List (List Char)),
      items.foldl (batchStep eng ui action) acc =
        (acc.1 ++ items.filterMap (okOutcome eng ui action),
          acc.2 ++ items.filterMap (errOutcome eng ui action)) := by
  intro items
  induction items with
  | nil => intro acc; simp
  | cons it rest ih =>
    intro acc
    rw [List.foldl_cons, ih]
    cases h : processItem eng ui action it with
    | ok r =>
      simp [batchStep, okOutcome, errOutcome, h, List.filterMap_cons]
    | error e =>
      simp [batchStep, okOutcome, errOutcome, h, List.filterMap_cons]

lemma countOutcomes (eng : Engine) (ui : UiState) (action : Action) :
    ∀ items : List BatchItem,
      (items.filterMap (okOutcome eng ui action)).length +
        (items.filterMap (errOutcome eng ui action)).length = items.length := by
  intro items
  induction items with
  | nil => simp
  | cons it rest ih =>
    cases h : processItem eng ui action it with
    | ok r =>
      simp only [List.filterMap_cons, okOutcome, errOutcome, h]
      simp [List.length_cons]
      omega
    | error e =>
      simp only [List.filterMap_cons, okOutcome, errOutcome, h]
      simp [List.length_cons]
      omega

/-- C6.  Batch isolation: the loop's result is exactly the in-order list
of per-item successes paired with the in-order list of per-item failure
messages `"{name}: {error}"`; each item contributes exactly one outcome
(the counts add up to the batch size), and each outcome is a function of
its own item alone, so one item's failure cannot affect another. -/
theorem batch_isolation_order (eng : Engine) (ui : UiState) (action : Action)
    (items : List BatchItem) :
    runBatch eng ui action items =
      (items.filterMap (okOutcome eng ui action),
        items.filterMap (errOutcome eng ui action)) ∧
      (runBatch eng ui action items).1.length +
        (runBatch eng ui action items).2.length = items.length := by
  have h := foldl_batchStep eng ui action items ([], [])
  constructor
  · simpa [runBatch] using h
  · simp only [runBatch, h, List.nil_append]
    exact countOutcomes eng ui action items

/-- Witness for C6: in the three-item example batch whose middle item is
unopenable, items 1 and 3 succeed with their renamed outputs and item 2
contributes the single failure message naming its source file. -/
theorem batch_isolation_order_witness :
    ((runBatch exEngine exUi .apply exItems).1.map Prod.fst,
        (runBatch exEngine exUi .apply exItems).2) =
      ([("[EDITED] a.pdf").toList, ("[EDITED] c.pdf").toList],
        [("b.pdf: invalid pdf header").toList]) := by
  rw [(batch_isolation_order exEngine exUi .apply exItems).1]
  rfl

/-- C7.  Clear removes auto-populated dates: whatever auto date entries
the fresh writer carries, a successfully processed Clear item's written
info mapping contains neither a CreationDate nor a ModDate entry. -/
theorem clear_removes_auto_dates (eng : Engine) (ui : UiState)
    (item : BatchItem) (nm : List Char) (info : WInfo)
    (h : processItem eng ui .clear item = .ok (nm, info)) :
    info creationDateKey = none ∧ info modDateKey = none := by
  simp only [processItem] at h
  cases hr : eng.readPdf item.bytes with
  | error e => rw [hr] at h; simp at h
  | ok srcOpt =>
    rw [hr] at h
    simp only [] at h
    cases hw : eng.writeErr
        (popField (popField (add_metadata (freshWriter eng.autoC eng.autoM) [])
          creationDateKey) modDateKey) with
    | some e => rw [hw] at h; simp at h
    | none =>
      rw [hw] at h
      have hinfo : info =
          popField (popField (add_metadata (freshWriter eng.autoC eng.autoM) [])
            creationDateKey) modDateKey := by
        have := h
        simp only [Except.ok.injEq, Prod.mk.injEq] at this
        exact this.2.symm
      rw [hinfo]
      constructor
      · simp [popField, show creationDateKey ≠ modDateKey from by decide]
      · simp [popField]

/-- Witness for C7: a concrete successful Clear run has no date keys in
its written info mapping. -/
theorem clear_removes_auto_dates_witness :
    (popField (popField (add_metadata (freshWriter exEngine.autoC exEngine.autoM) [])
        creationDateKey) modDateKey) creationDateKey = none ∧
      (popField (popField (add_metadata (freshWriter exEngine.autoC exEngine.autoM) [])
        creationDateKey) modDateKey) modDateKey = none :=
  clear_removes_auto_dates exEngine exUi ⟨("a.pdf").toList, [1]⟩ _ _ rfl

lemma add_metadata_append (i : WInfo) (a b : List (List Char × List Char)) :
    add_metadata i (a ++ b) = add_metadata (add_metadata i a) b :=
  List.foldl_append _ _ _ _

lemma add_metadata_optEntry (i : WInfo) (c : Prop) [Decidable c]
    (k v q : List Char) :
    add_metadata i (optEntry c k v) q = if c ∧ q = k then some v else i q := by
  by_cases hc : c
  · by_cases hq : q = k <;> simp [optEntry, add_metadata, setField, hc, hq]
  · simp [optEntry, add_metadata, hc]

lemma buildDateMeta_lookup_other (eng : Engine) (ui : UiState)
    (item : BatchItem) (i : WInfo) (q : List Char)
    (h1 : q ≠ creationDateKey) (h2 : q ≠ modDateKey) :
    add_metadata i (buildDateMeta eng ui item) q = i q := by
  unfold buildDateMeta
  split <;> simp [add_metadata_append, add_metadata_optEntry, h1, h2]

/-- The info mapping a successful Apply item writes. -/
lemma processItem_apply_info (eng : Engine) (ui : UiState)
    (item : BatchItem) (nm : List Char) (info : WInfo)
    (h : processItem eng ui .apply item = .ok (nm, info)) :
    info = add_metadata (freshWriter eng.autoC eng.autoM)
      (buildTextMeta ui ++ buildDateMeta eng ui item) := by
  simp only [processItem] at h
  cases hr : eng.readPdf item.bytes with
  | error e => rw [hr] at h; simp at h
  | ok srcOpt =>
    rw [hr] at h
    simp only [] at h
    cases hw : eng.writeErr (add_metadata (freshWriter eng.autoC eng.autoM)
        (buildTextMeta ui ++ buildDateMeta eng ui item)) with
    | some e => rw [hw] at h; simp at h
    | none =>
      rw [hw] at h
      simp only [Except.ok.injEq, Prod.mk.injEq] at h
      exact h.2.symm

/-- C8.  Blank field omission: in a successful Apply item's written info
mapping, each of the six scalar fields is absent exactly when its UI
value strips to the empty string, and otherwise holds the stripped value
verbatim. -/
theorem blank_field_omission (eng : Engine) (ui : UiState)
    (item : BatchItem) (nm : List Char) (info : WInfo)
    (h : processItem eng ui .apply item = .ok (nm, info)) :
    info titleKey =
        (if pyStrip ui.title = [] then none else some (pyStrip ui.title)) ∧
      info authorKey =
        (if pyStrip ui.author = [] then none else some (pyStrip ui.author)) ∧
      info subjectKey =
        (if pyStrip ui.subject = [] then none else some (pyStrip ui.subject)) ∧
      info keywordsKey =
        (if pyStrip ui.keywords = [] then none else some (pyStrip ui.keywords)) ∧
      info creatorKey =
        (if pyStrip ui.creator = [] then none else some (pyStrip ui.creator)) ∧
      info producerKey =
        (if pyStrip ui.producer = [] then none else some (pyStrip ui.producer)) := by
  rw [processItem_apply_info eng ui item nm info h]
  rw [add_metadata_append]
  refine ⟨?_, ?_, ?_, ?_, ?_, ?_⟩
  · rw [buildDateMeta_lookup_other eng ui item _ titleKey (by decide) (by decide)]
    simp [buildTextMeta, add_metadata_append, add_metadata_optEntry,
      freshWriter, ite_not,
      show titleKey ≠ authorKey from by decide,
      show titleKey ≠ subjectKey from by decide,
      show titleKey ≠ keywordsKey from by decide,
      show titleKey ≠ creatorKey from by decide,
      show titleKey ≠ producerKey from by decide,
      show titleKey ≠ creationDateKey from by decide,
      show titleKey ≠ modDateKey from by decide]
  · rw [buildDateMeta_lookup_other eng ui item _ authorKey (by decide) (by decide)]
    simp [buildTextMeta, add_metadata_append, add_metadata_optEntry,
      freshWriter, ite_not,
      show authorKey ≠ titleKey from by decide,
      show authorKey ≠ subjectKey from by decide,
      show authorKey ≠ keywordsKey from by decide,
      show authorKey ≠ creatorKey from by decide,
      show authorKey ≠ producerKey from by decide,
      show authorKey ≠ creationDateKey from by decide,
      show authorKey ≠ modDateKey from by decide]
  · rw [buildDateMeta_lookup_other eng ui item _ subjectKey (by decide) (by decide)]
    simp [buildTextMeta, add_metadata_append, add_metadata_optEntry,
      freshWriter, ite_not,
      show subjectKey ≠ titleKey from by decide,
      show subjectKey ≠ authorKey from by decide,
      show subjectKey ≠ keywordsKey from by decide,
      show subjectKey ≠ creatorKey from by decide,
      show subjectKey ≠ producerKey from by decide,
      show subjectKey ≠ creationDateKey from by decide,
      show subjectKey ≠ modDateKey from by decide]
  · rw [buildDateMeta_lookup_other eng ui item _ keywordsKey (by decide) (by decide)]
    simp [buildTextMeta, add_metadata_append, add_metadata_optEntry,
      freshWriter, ite_not,
      show keywordsKey ≠ titleKey from by decide,
      show keywordsKey ≠ authorKey from by decide,
      show keywordsKey ≠ subjectKey from by decide,
      show keywordsKey ≠ creatorKey from by decide,
      show keywordsKey ≠ producerKey from by decide,
      show keywordsKey ≠ creationDateKey from by decide,
      show keywordsKey ≠ modDateKey from by decide]
  · rw [buildDateMeta_lookup_other eng ui item _ creatorKey (by decide) (by decide)]
    simp [buildTextMeta, add_metadata_append, add_metadata_optEntry,
      freshWriter, ite_not,
      show creatorKey ≠ titleKey from by decide,
      show creatorKey ≠ authorKey from by decide,
      show creatorKey ≠ subjectKey from by decide,
      show creatorKey ≠ keywordsKey from by decide,
      show creatorKey ≠ producerKey from by decide,
      show creatorKey ≠ creationDateKey from by decide,
      show creatorKey ≠ modDateKey from by decide]
  · rw [buildDateMeta_lookup_other eng ui item _ producerKey (by decide) (by decide)]
    simp [buildTextMeta, add_metadata_append, add_metadata_optEntry,
      freshWriter, ite_not,
      show producerKey ≠ titleKey from by decide,
      show producerKey ≠ authorKey from by decide,
      show producerKey ≠ subjectKey from by decide,
      show producerKey ≠ keywordsKey from by decide,
      show producerKey ≠ creatorKey from by decide,
      show producerKey ≠ creationDateKey from by decide,
      show producerKey ≠ modDateKey from by decide]

/-- Witness for C8: with a whitespace-only title and author `"A"`, the
written info mapping has no Title entry and author `"A"` verbatim. -/
theorem blank_field_omission_witness :
    ∃ nm info,
      processItem exEngine exUiBlank .apply ⟨("a.pdf").toList, [1]⟩ =
          .ok (nm, info) ∧
        info titleKey = none ∧ info authorKey = some (("A").toList) := by
  refine ⟨_, _, rfl, ?_, ?_⟩
  · have h := blank_field_omission exEngine exUiBlank ⟨("a.pdf").toList, [1]⟩ _ _ rfl
    rw [h.1]
    decide
  · have h := blank_field_omission exEngine exUiBlank ⟨("a.pdf").toList, [1]⟩ _ _ rfl
    rw [h.2.1]
    decide

/-- C9.  Output naming: a successful item's output name is the literal
tag `[EDITED]` (Apply) or `[CLEARED]` (Clear), a space, the stem of the
source name, and `.pdf`; in particular `report.pdf` maps to
`[EDITED] report.pdf` and `[CLEARED] report.pdf`. -/
theorem output_naming (eng : Engine) (ui : UiState) (action : Action)
    (item : BatchItem) (nm : List Char) (info : WInfo)
    (h : processItem eng ui action item = .ok (nm, info)) :
    nm = (match action with
        | .apply => ("[EDITED]").toList
        | .clear => ("[CLEARED]").toList) ++ [' '] ++ pyStem item.name ++
        (".pdf").toList ∧
      outputName Action.apply (("report.pdf").toList) =
        ("[EDITED] report.pdf").toList ∧
      outputName Action.clear (("report.pdf").toList) =
        ("[CLEARED] report.pdf").toList := by
  refine ⟨?_, by decide, by decide⟩
  simp only [processItem] at h
  cases hr : eng.readPdf item.bytes with
  | error e => rw [hr] at h; simp at h
  | ok srcOpt =>
    rw [hr] at h
    simp only [] at h
    cases action with
    | apply =>
      cases hw : eng.writeErr (add_metadata (freshWriter eng.autoC eng.autoM)
          (buildTextMeta ui ++ buildDateMeta eng ui item)) with
      | some e => rw [hw] at h; simp at h
      | none =>
        rw [hw] at h
        simp only [Except.ok.injEq, Prod.mk.injEq] at h
        exact h.1.symm
    | clear =>
      cases hw : eng.writeErr (popField (popField
          (add_metadata (freshWriter eng.autoC eng.autoM) []) creationDateKey)
          modDateKey) with
      | some e => rw [hw] at h; simp at h
      | none =>
        rw [hw] at h
        simp only [Except.ok.injEq, Prod.mk.injEq] at h
        exact h.1.symm

/-- Witness for C9 on a concrete successful item. -/
theorem output_naming_witness :
    outputName Action.apply (("report.pdf").toList) =
        ("[EDITED] report.pdf").toList ∧
      outputName Action.clear (("report.pdf").toList) =
        ("[CLEARED] report.pdf").toList :=
  (output_naming exEngine exUi Action.apply ⟨("report.pdf").toList, [1]⟩ _ _
    rfl).2

/-- C10.  Metadata extraction is total with branded defaults: any failed
open or read yields the default field set (empty text fields, the
JasperReports/OpenPDF constants, no dates), and even on a successful
read a missing or empty Creator or Producer entry is replaced by the
corresponding default constant. -/
theorem extract_metadata_total_defaults :
    (∀ e, extract_metadata_dict (.error e) = defaultExtracted) ∧
      (∀ info : SrcInfo,
        info.find? (fun p => p.1 == creatorKey) = none ∨
          (∃ p, info.find? (fun p0 => p0.1 == creatorKey) = some p ∧ p.2 = []) →
        (extract_metadata_dict (.ok (some info))).creator = DEFAULT_CREATOR) ∧
      (∀ info : SrcInfo,
        info.find? (fun p => p.1 == producerKey) = none ∨
          (∃ p, info.find? (fun p0 => p0.1 == producerKey) = some p ∧ p.2 = []) →
        (extract_metadata_dict (.ok (some info))).producer = DEFAULT_PRODUCER) := by
  refine ⟨fun e => rfl, fun info hc => ?_, fun info hp => ?_⟩
  · have hget : pyOr (pyGet info creatorKey DEFAULT_CREATOR) DEFAULT_CREATOR =
        DEFAULT_CREATOR := by
      rcases hc with hnone | ⟨p, hfind, hval⟩
      · simp [pyGet, hnone, pyOr]
      · simp [pyGet, hfind, hval, pyOr]
    simp only [extract_metadata_dict, Option.getD_some]
    split
    · simp only [hget]
    · rfl
  · have hget : pyOr (pyGet info producerKey DEFAULT_PRODUCER) DEFAULT_PRODUCER =
        DEFAULT_PRODUCER := by
      rcases hp with hnone | ⟨p, hfind, hval⟩
      · simp [pyGet, hnone, pyOr]
      · simp [pyGet, hfind, hval, pyOr]
    simp only [extract_metadata_dict, Option.getD_some]
    split
    · simp only [hget]
    · rfl

/-- Witness for C10: a failed read yields the defaults, and an empty
stored Creator is replaced by the JasperReports constant. -/
theorem extract_metadata_total_defaults_witness :
    extract_metadata_dict (.error (("cannot open").toList)) = defaultExtracted ∧
      (extract_metadata_dict (.ok (some [(creatorKey, [])]))).creator =
        DEFAULT_CREATOR :=
  ⟨extract_metadata_total_defaults.1 _,
    extract_metadata_total_defaults.2.1 _ (Or.inr ⟨(creatorKey, []), rfl, rfl⟩)⟩

end PdfMeta
